import Mathlib

/-!
Shallow embedding of the VM lifecycle supervisor of
`src/samples/vboxwrapper/vbox.cpp` (the BOINC vboxwrapper core).

Modelling conventions:
* C++ `std::string` values are `List Char`; `std::string::find` returns
  `Option Nat`, with `none` playing the role of `std::string::npos`.  At the
  few places where the source compares `npos` by truthiness or lets it wrap
  under `size_t` arithmetic, the corresponding case is spelled out at the use
  site, following the source.
* Every CLI invocation is an oracle: the child's exit status and combined
  stdout/stderr text are parameters of the embedded function.
* Machine integers carrying hypervisor error codes are `Nat` holding the
  32-bit pattern of the C `int`; where a value could exceed 32 bits it is
  reduced `% 2 ^ 32`.
-/

/-- First index at which `needle` occurs in `hay`
(`std::string::find`, with `none` for `npos`). -/
def strFind : List Char → List Char → Option Nat
  | [], needle => if needle = [] then some 0 else none
  | c :: rest, needle =>
    if needle.isPrefixOf (c :: rest) then some 0
    else (strFind rest needle).map (· + 1)

/-- `std::string::find(needle, pos)`: first occurrence at index `pos` or
later, as an absolute index. -/
def strFindFrom (hay needle : List Char) (pos : Nat) : Option Nat :=
  (strFind (hay.drop pos) needle).map (· + pos)

/-- Whether `needle` occurs in `hay` (`find(...) != npos`). -/
def strContains (hay needle : List Char) : Bool :=
  (strFind hay needle).isSome

/-- `std::string::substr(pos, len)` with the count clamped to the string
end, as in C++. -/
def substr (s : List Char) (pos len : Nat) : List Char :=
  (s.drop pos).take len

/-- `s.substr(start, stop - start)` where `stop` came from a `find`: when
`stop` is `npos`, `npos - start` exceeds the length and the whole tail is
taken, as in C++. -/
def substrTo (s : List Char) (start : Nat) (stop : Option Nat) : List Char :=
  match stop with
  | some e => substr s start (e - start)
  | none => s.drop start

/-- Value of one hex digit, `none` for a non-digit. -/
def hexVal? (c : Char) : Option Nat :=
  if '0' ≤ c ∧ c ≤ '9' then some (c.toNat - '0'.toNat)
  else if 'a' ≤ c ∧ c ≤ 'f' then some (c.toNat - 'a'.toNat + 10)
  else if 'A' ≤ c ∧ c ≤ 'F' then some (c.toNat - 'A'.toNat + 10)
  else none

/-- Accumulate further hex digits (stops at the first non-digit). -/
def hexMore : List Char → Nat → Nat
  | [], acc => acc
  | c :: rest, acc =>
    match hexVal? c with
    | none => acc
    | some d => hexMore rest (acc * 16 + d)

/-- Parse a run of hex digits at the front of `s`; `none` when `s` does not
start with a hex digit. -/
def hexRun? : List Char → Option Nat
  | [] => none
  | c :: rest =>
    match hexVal? c with
    | none => none
    | some d => some (hexMore rest d)

/-- Effect of `sscanf(s, "%x", &retval)` (vbox.cpp lines 2089 and 2130):
skip leading whitespace, allow an optional `0x`/`0X` prefix, read hex
digits; `none` when no conversion happens, in which case the source leaves
`retval` untouched.  The stored value is the 32-bit pattern. -/
def sscanfHex (s : List Char) : Option Nat :=
  let s1 := s.dropWhile (fun c => c == ' ' || c == '\t' || c == '\n' || c == '\r')
  match s1 with
  | '0' :: x :: rest =>
    if x = 'x' ∨ x = 'X' then
      match hexRun? rest with
      | some v => some (v % 2 ^ 32)
      | none => some 0
    else (hexRun? s1).map (· % 2 ^ 32)
  | _ => (hexRun? s1).map (· % 2 ^ 32)

/-- Modelled from the spec: BOINC's `lib/error_numbers.h` is not under
`src/`; the spec only names the codes (`ERR_FOPEN`, `ERR_EXEC`,
`ERR_TIMEOUT`, `ERR_NOT_FOUND`, `ERR_FWRITE`) as distinct non-zero error
returns.  Values are the 32-bit patterns of the usual negative BOINC
constants; the development only relies on their being distinct and
non-zero. -/
def ERR_FOPEN : Nat := 2 ^ 32 - 108

/-- Modelled from the spec: generic "operation did not take effect" code,
see `ERR_FOPEN`. -/
def ERR_EXEC : Nat := 2 ^ 32 - 162

/-- Modelled from the spec: timeout code for a CLI child that outlived its
budget, see `ERR_FOPEN`. -/
def ERR_TIMEOUT : Nat := 2 ^ 32 - 227

/-- Success return (`BOINC_SUCCESS`). -/
def BOINC_SUCCESS : Nat := 0

/-- The error-code extraction block shared by both platform branches of
`VBOX_VM::vbm_popen_raw` (vbox.cpp lines 2082-2090 and 2123-2131), starting
from `retval = 0`:

    errcode_start = output.find("(0x");
    if (errcode_start) {
        errcode_start += 1;
        errcode_end = output.find(")", errcode_start);
        errcode = output.substr(errcode_start, errcode_end - errcode_start);
        sscanf(errcode.c_str(), "%x", &retval);
    }

Note the source tests the position by truthiness, not against `npos`: a
match at index 0 skips the parse, and a missing match leaves
`errcode_start = npos`, which wraps to 0 under `+= 1`, so the parse then
runs from the start of the output. -/
def parseOutputErrcode (output : List Char) : Nat :=
  match strFind output "(0x".toList with
  | some 0 => 0
  | some (n + 1) =>
    let start := n + 2
    let stop := strFindFrom output ")".toList start
    match sscanfHex (substrTo output start stop) with
    | some v => v
    | none => 0
  | none =>
    let stop := strFindFrom output ")".toList 0
    match sscanfHex (substrTo output 0 stop) with
    | some v => v
    | none => 0

/-- Windows branch of `VBOX_VM::vbm_popen_raw` after the wait loop
(vbox.cpp lines 2080-2095), for a run without timeout: when the child exit
code is non-zero or the process never spawned, parse the `(0x...)` code out
of the output and fall back to `ERR_FOPEN` when nothing was parsed;
otherwise return 0. -/
def vbm_popen_raw_win (spawn_ok : Bool) (exit_code : Nat) (output : List Char) : Nat :=
  if exit_code ≠ 0 ∨ spawn_ok = false then
    let r := parseOutputErrcode output
    if r = 0 then ERR_FOPEN else r
  else 0

/-- POSIX branch of `VBOX_VM::vbm_popen_raw` (vbox.cpp lines 2097-2134):
`popen` failure returns `ERR_FOPEN`; otherwise the output is captured, the
`(0x...)` code is parsed into `retval` (lines 2123-2131) and then
line 2133 executes `retval = 0;`, discarding the parsed code, so the
function returns 0.  The `pclose` status is never consulted.  The returned
pair is `(retval, output buffer)`. -/
def vbm_popen_raw (popen_ok : Bool) (child_output : List Char) : Nat × List Char :=
  if popen_ok = false then (ERR_FOPEN, [])
  else
    let _parsed := parseOutputErrcode child_output
    (0, child_output)

/-- The operator note accumulated by the retry controller
(vbox.cpp lines 1900-1904). -/
def lockNote : List Char :=
  ("Another VirtualBox management application has locked the session for\n" ++
   "this VM. BOINC cannot properly monitor this VM\n" ++
   "and so this job will be aborted.\n\n").toList

/-- The needle `retry_notes.find("Another VirtualBox management")` tested at
vbox.cpp line 1900 before appending the note. -/
def lockNeedle : List Char := "Another VirtualBox management".toList

/-- Outcome of one `VBOX_VM::vbm_popen` call: final return code, number of
`vbm_popen_raw` invocations, the sleep durations (seconds) between retries
in order, the final output buffer, and the accumulated `retry_notes`. -/
structure VbmResult where
  retval : Nat
  calls : Nat
  sleeps : List Nat
  output : List Char
  notes : List Char
  deriving DecidableEq, Repr

/-- Mutable state of the retry loop of `VBOX_VM::vbm_popen`:
next raw-call index, `retry_count`, `sleep_interval` (seconds),
`retry_notes`, and the sleeps performed so far (most recent first). -/
structure VbmIter where
  i : Nat
  retry_count : Nat
  sleep_interval : Nat
  notes : List Char
  sleeps : List Nat
  deriving DecidableEq, Repr

/-- One iteration of the do-while loop of `VBOX_VM::vbm_popen`
(vbox.cpp lines 1874-1920).  `raw n` is the result (code, output) of the
n-th `vbm_popen_raw` call.  `Sum.inl` is loop exit (by success, by
`!retry_failures`, or by `retry_count >= 5`); `Sum.inr` carries the state
into the next iteration after the backoff sleep. -/
def vbmStep (raw : Nat → Nat × List Char) (retry_failures : Bool) (st : VbmIter) :
    VbmResult ⊕ VbmIter :=
  let retval := (raw st.i).1
  let out := (raw st.i).2
  if retval = 0 then
    Sum.inl ⟨0, st.i + 1, st.sleeps.reverse, out, st.notes⟩
  else
    let notes1 :=
      if retval = 0x80bb0007 ∧ strContains st.notes lockNeedle = false then
        st.notes ++ lockNote
      else st.notes
    let si1 :=
      if retval = 0x80bb0007 ∧ st.retry_count ≠ 0 then st.sleep_interval * 2
      else st.sleep_interval
    if retry_failures = false ∨ 5 ≤ st.retry_count then
      Sum.inl ⟨retval, st.i + 1, st.sleeps.reverse, out, notes1⟩
    else
      Sum.inr ⟨st.i + 1, st.retry_count + 1, si1, notes1, si1 :: st.sleeps⟩

/-- The retry loop of `VBOX_VM::vbm_popen`, driven by fuel.  Because
`retry_count` grows by one per iteration and the loop breaks as soon as it
reaches 5, fuel 6 (used by `vbm_popen`) never runs out; the fuel-exhausted
answer reports the calls made so far. -/
def vbmRun (raw : Nat → Nat × List Char) (retry_failures : Bool) :
    Nat → VbmIter → VbmResult
  | 0, st => ⟨1, st.i, st.sleeps.reverse, [], st.notes⟩
  | fuel + 1, st =>
    match vbmStep raw retry_failures st with
    | Sum.inl r => r
    | Sum.inr st1 => vbmRun raw retry_failures fuel st1

/-- `VBOX_VM::vbm_popen` (vbox.cpp lines 1867-1953): run the retry loop,
then, on final failure with `log_error` set, append the accumulated notes
to the output and emit the error log line (whose timestamp prefix and
numeric code rendering are elided; its text content is the item, the
arguments and the final output).  The second component is the emitted error
log, empty when nothing was logged. -/
def vbm_popen (raw : Nat → Nat × List Char) (arguments item : List Char)
    (log_error retry_failures : Bool) : VbmResult × List Char :=
  let r := vbmRun raw retry_failures 6 ⟨0, 0, 1, [], []⟩
  if r.retval ≠ 0 ∧ log_error = true then
    let out1 :=
      if r.notes ≠ [] then r.output ++ "\nNotes:\n\n".toList ++ r.notes
      else r.output
    ({ r with output := out1 },
     "Error in ".toList ++ item ++ " for VM\nArguments:\n".toList ++ arguments ++
       "\nOutput:\n".toList ++ out1 ++ "\n".toList)
  else (r, [])

/-- The four runtime-state booleans owned by the supervisor
(vbox.cpp lines 86-89). -/
structure VMFlags where
  online : Bool
  suspended : Bool
  crashed : Bool
  network_suspended : Bool
  deriving DecidableEq, Repr

/-- Flags as initialized by the `VBOX_VM` constructor
(vbox.cpp lines 86-89). -/
def initFlags : VMFlags := ⟨false, false, false, false⟩

/-- The VMState token classification of `VBOX_VM::poll`
(vbox.cpp lines 608-664), as the `(online, suspended, crashed)` values that
the matched branch assigns; every branch of the source assigns all three,
and unrecognized tokens (including the powered-off states) clear all
three. -/
def vmstateTriple (vmstate : List Char) : Bool × Bool × Bool :=
  if vmstate = "running".toList then (true, false, false)
  else if vmstate = "paused".toList then (true, true, false)
  else if vmstate = "starting".toList then (true, false, false)
  else if vmstate = "stopping".toList then (true, false, false)
  else if vmstate = "saving".toList then (true, false, false)
  else if vmstate = "restoring".toList then (true, false, false)
  else if vmstate = "livesnapshotting".toList then (true, false, false)
  else if vmstate = "deletingsnapshotlive".toList then (true, false, false)
  else if vmstate = "deletingsnapshotlivepaused".toList then (true, false, false)
  else if vmstate = "aborted".toList then (false, false, true)
  else if vmstate = "gurumeditation".toList then (false, false, true)
  else (false, false, false)

/-- The flag assignment performed by the matched branch of `VBOX_VM::poll`
(vbox.cpp lines 608-664): `online`, `suspended` and `crashed` take the
classified values, `network_suspended` is not touched. -/
def vmstateFlags (vmstate : List Char) (s : VMFlags) : VMFlags :=
  { s with online := (vmstateTriple vmstate).1,
           suspended := (vmstateTriple vmstate).2.1,
           crashed := (vmstateTriple vmstate).2.2 }

/-- Extraction of the `VMState="..."` token from the machine-readable
`showvminfo` output (vbox.cpp lines 593-597). -/
def extractVMState (output : List Char) : Option (List Char) :=
  match strFind output "VMState=\"".toList with
  | none => none
  | some n =>
    let start := n + 9
    let stop := strFindFrom output "\"".toList start
    some (substrTo output start stop)

/-- `VBOX_VM::poll` (vbox.cpp lines 581-667): when the `showvminfo` call
succeeds and a `VMState="..."` token is present, reclassify the flags;
otherwise leave them untouched.  `cliOk` and `output` are the oracle for
the CLI call. -/
def poll (cliOk : Bool) (output : List Char) (s : VMFlags) : VMFlags :=
  if cliOk then
    match extractVMState output with
    | some st => vmstateFlags st s
    | none => s
  else s

/-- `VBOX_VM::pause` (vbox.cpp lines 405-421): on CLI failure propagate the
code with the flags untouched; on success set `suspended` (without
consulting `online`). -/
def pause (cliRet : Nat) (s : VMFlags) : Nat × VMFlags :=
  if cliRet ≠ 0 then (cliRet, s) else (0, { s with suspended := true })

/-- `VBOX_VM::resume` (vbox.cpp lines 423-438): on CLI success clear
`suspended`. -/
def resume (cliRet : Nat) (s : VMFlags) : Nat × VMFlags :=
  if cliRet ≠ 0 then (cliRet, s) else (0, { s with suspended := false })

/-- The `showvminfo --machinereadable` command issued by `VBOX_VM::poll`
(vbox.cpp lines 589-590). -/
def showvminfoCmd (vm_name : List Char) : List Char :=
  "showvminfo \"".toList ++ vm_name ++ "\" --machinereadable ".toList

/-- Result of a lifecycle action: return code, CLI commands issued, and the
flags afterwards. -/
structure CliOutcome where
  retval : Nat
  cmds : List (List Char)
  flags : VMFlags
  deriving DecidableEq, Repr

/-- `VBOX_VM::stop` (vbox.cpp lines 331-366): when `online` is false the
body is skipped and 0 is returned with nothing issued; otherwise
`controlvm savestate` is issued (its return code is immediately
overwritten), one poll follows, and the result is 0 when `online` went
false, `ERR_EXEC` otherwise. -/
def stop (vm_name : List Char) (_cliRet : Nat) (pollOk : Bool) (pollOut : List Char)
    (s : VMFlags) : CliOutcome :=
  if s.online then
    let s1 := poll pollOk pollOut s
    { retval := if s1.online = false then BOINC_SUCCESS else ERR_EXEC,
      cmds := ["controlvm \"".toList ++ vm_name ++ "\" savestate".toList,
               showvminfoCmd vm_name],
      flags := s1 }
  else { retval := 0, cmds := [], flags := s }

/-- `VBOX_VM::poweroff` (vbox.cpp lines 368-403): same shape as `stop` with
`controlvm poweroff`. -/
def poweroff (vm_name : List Char) (_cliRet : Nat) (pollOk : Bool) (pollOut : List Char)
    (s : VMFlags) : CliOutcome :=
  if s.online then
    let s1 := poll pollOk pollOut s
    { retval := if s1.online = false then BOINC_SUCCESS else ERR_EXEC,
      cmds := ["controlvm \"".toList ++ vm_name ++ "\" poweroff".toList,
               showvminfoCmd vm_name],
      flags := s1 }
  else { retval := 0, cmds := [], flags := s }

/-- The `startvm` command built by `VBOX_VM::start`
(vbox.cpp lines 294-297). -/
def startvmCmd (vm_name : List Char) (headless : Bool) : List Char :=
  "startvm \"".toList ++ vm_name ++ "\"".toList ++
    (if headless then " --type headless".toList else [])

/-- The wait loop of `VBOX_VM::start` (vbox.cpp lines 305-310):
`timeout = dtime() + 300; do { poll(false); if (online) break;
boinc_sleep(1.0); } while (timeout >= dtime());`.  Time is idealized so
each iteration advances the clock by exactly the 1-second sleep; `t` is the
elapsed seconds at the current poll and the fuel is 301 at `t = 0`.  The
oracles give each poll's CLI success and output.  Returns the final flags
and the number of polls performed. -/
def startWait (pollOk : Nat → Bool) (pollOut : Nat → List Char) :
    VMFlags → Nat → Nat → VMFlags × Nat
  | s, _t, 0 => (s, 0)
  | s, t, fuel + 1 =>
    let s1 := poll (pollOk t) (pollOut t) s
    if s1.online then (s1, 1)
    else if t + 1 ≤ 300 then
      let r := startWait pollOk pollOut s1 (t + 1) fuel
      (r.1, r.2 + 1)
    else (s1, 1)

/-- `VBOX_VM::start` (vbox.cpp lines 282-329): issue `startvm` (with
`--type headless` exactly when `headless`), propagate a CLI failure, and
otherwise run the wait loop; success when `online` was observed, `ERR_EXEC`
otherwise. -/
def start (vm_name : List Char) (headless : Bool) (startRet : Nat)
    (pollOk : Nat → Bool) (pollOut : Nat → List Char) (s : VMFlags) : CliOutcome :=
  if startRet ≠ 0 then
    { retval := startRet, cmds := [startvmCmd vm_name headless], flags := s }
  else
    let r := startWait pollOk pollOut s 0 301
    { retval := if r.1.online then BOINC_SUCCESS else ERR_EXEC,
      cmds := startvmCmd vm_name headless :: List.replicate r.2 (showvminfoCmd vm_name),
      flags := r.1 }

/-- What one poll reports about `online` independently of the previous
flags: `none` when the CLI call fails or no `VMState` token is present (the
old value then persists), `some b` otherwise. -/
def pollOnlineSignal (cliOk : Bool) (output : List Char) : Option Bool :=
  if cliOk then
    match extractVMState output with
    | some st => some (vmstateTriple st).1
    | none => none
  else none

/-- The flag-mutating supervisor operations, each carrying the oracle for
its CLI calls: `poll`, `pause`, `resume`, `stop`, `poweroff` and
`set_network_access` (vbox.cpp lines 331-438, 581-667, 1692-1730). -/
inductive SupOp where
  | poll (cliOk : Bool) (out : List Char)
  | pause (cliRet : Nat)
  | resume (cliRet : Nat)
  | stop (cliRet : Nat) (pollOk : Bool) (pollOut : List Char)
  | poweroff (cliRet : Nat) (pollOk : Bool) (pollOut : List Char)
  | setNetwork (enabled : Bool)
  deriving DecidableEq

/-- Effect of one supervisor operation on the runtime flags.
`set_network_access` assigns `network_suspended = !enabled` before its CLI
call (vbox.cpp line 1698), unconditionally. -/
def supStep (op : SupOp) (s : VMFlags) : VMFlags :=
  match op with
  | .poll ok out => poll ok out s
  | .pause r => (pause r s).2
  | .resume r => (resume r s).2
  | .stop r ok out => (stop [] r ok out s).flags
  | .poweroff r ok out => (poweroff [] r ok out s).flags
  | .setNetwork b => { s with network_suspended := !b }

/-- Runtime flags reached by a sequence of supervisor operations from the
constructor state. -/
def supRun (ops : List SupOp) (s : VMFlags) : VMFlags :=
  ops.foldl (fun st op => supStep op st) s

/-- `is_client_version_newer` (vbox.cpp lines 60-67).  Despite the name,
the comparison it computes is `(maj, minr, rel) < (aid major, minor,
release)` lexicographically, i.e. it answers whether the client version in
`aid` is strictly newer than the given triple. -/
def is_client_version_newer (aid_major aid_minor aid_release maj minr rel : Nat) : Bool :=
  if maj < aid_major then true
  else if maj > aid_major then false
  else if minr < aid_minor then true
  else if minr > aid_minor then false
  else if rel < aid_release then true
  else false

/-- The hardware-virtualization decision of `VBOX_VM::register_vm`
(vbox.cpp lines 941-997): only for 32-bit guests (`os_name` without
`_64`); disable when the host features lack both `vmx` and `svm`, or
contain `hypervisor`, or — on clients newer than 7.2.16 —
`vm_extensions_disabled` is set, and on clients not newer than 7.2.16 when
`vm_cpu_count` is the string `1`.  Returns whether `--hwvirtex off` is
issued. -/
def hwvirtexOff (os_name p_features vm_cpu_count : List Char)
    (aid_major aid_minor aid_release : Nat) (vm_extensions_disabled : Bool) : Bool :=
  if strContains os_name "_64".toList then false
  else
    let d1 := !strContains p_features "vmx".toList && !strContains p_features "svm".toList
    let d2 := strContains p_features "hypervisor".toList
    let d3 :=
      if is_client_version_newer aid_major aid_minor aid_release 7 2 16 then
        vm_extensions_disabled
      else vm_cpu_count == "1".toList
    d1 || d2 || d3

/-- The `modifyvm --hwvirtex off` command of `VBOX_VM::register_vm`
(vbox.cpp lines 990-991), issued exactly when `hwvirtexOff` holds. -/
def hwvirtexCmds (vm_name os_name p_features vm_cpu_count : List Char)
    (aid_major aid_minor aid_release : Nat) (vm_extensions_disabled : Bool) :
    List (List Char) :=
  if hwvirtexOff os_name p_features vm_cpu_count aid_major aid_minor aid_release
      vm_extensions_disabled then
    ["modifyvm \"".toList ++ vm_name ++ "\" --hwvirtex off ".toList]
  else []

/-- The `storagectl` command with which `VBOX_VM::register_vm` creates the
disk controller (vbox.cpp lines 1008-1015): name "Hard Disk Controller",
configured type and model, host I/O cache off, and `--sataportcount 1` for
SATA. -/
def register_vm_storagectl (vm_name ctype cmodel : List Char) : List Char :=
  "storagectl \"".toList ++ vm_name ++ "\" --name \"Hard Disk Controller\" --add \"".toList ++
    ctype ++ "\" --controller \"".toList ++ cmodel ++ "\" --hostiocache off ".toList ++
    (if ctype = "sata".toList ∨ ctype = "SATA".toList then "--sataportcount 1 ".toList
     else [])

/-- The CLI commands issued by `VBOX_VM::deregister_vm`
(vbox.cpp lines 1188-1247), in order, after the initial
`cleanupsnapshots(true)` call (line 1186, modelled separately by
`cleanupsnapshots`): remove a storage controller named "IDE Controller",
remove the floppy controller when floppy I/O is enabled, `unregistervm
--delete`, and `closemedium` for the disk and (when enabled) the floppy
with `--delete` exactly when `delete_media` is set.  All results are
ignored and the function returns 0. -/
def deregister_vm (vm_name slot image floppy : List Char)
    (enable_floppyio delete_media : Bool) : List (List Char) :=
  ["storagectl \"".toList ++ vm_name ++ "\" --name \"IDE Controller\" --remove ".toList] ++
  (if enable_floppyio then
    ["storagectl \"".toList ++ vm_name ++ "\" --name \"Floppy Controller\" --remove ".toList]
   else []) ++
  ["unregistervm \"".toList ++ vm_name ++ "\" --delete ".toList] ++
  ["closemedium disk \"".toList ++ slot ++ "/".toList ++ image ++ "\" ".toList ++
    (if delete_media then "--delete ".toList else [])] ++
  (if enable_floppyio then
    ["closemedium floppy \"".toList ++ slot ++ "/".toList ++ floppy ++ "\" ".toList ++
      (if delete_media then "--delete ".toList else [])]
   else [])

/-- The while loop of `VBOX_VM::cleanupsnapshots`
(vbox.cpp lines 507-542).  `output` is the buffer the loop iterates over
— initially the snapshot listing, but each `snapshot delete` call passes
the same `output` variable to `vbm_popen`, which clears and refills it
with the delete command's own output (`delOut k` for the k-th delete), so
the loop continues over that new content with the old line positions.
`eol_prev`/`eol_pos` mirror `eol_prev_pos`/`eol_pos`; the accumulator
collects the UUIDs for which a delete was issued (most recent first).
`fuel` bounds the iterations (the source loop's iteration count depends on
the oracle outputs and is not bounded a priori). -/
def cleanupLoop (delete_active : Bool) (delOut : Nat → List Char) :
    Nat → List Char → Nat → Option Nat → Nat → List (List Char) → List (List Char)
  | 0, _output, _eol_prev, _eol_pos, _delCount, acc => acc.reverse
  | fuel + 1, output, eol_prev, eol_pos, delCount, acc =>
    match eol_pos with
    | none => acc.reverse
    | some e =>
      let line := substr output eol_prev (e - eol_prev)
      if strContains line "does not have any snapshots".toList then acc.reverse
      else if delete_active = false ∧ strContains line "*".toList then acc.reverse
      else
        match strFind line "(UUID: ".toList with
        | some u =>
          let ustart := u + 7
          let uend := strFindFrom line ")".toList ustart
          let uuid := substrTo line ustart uend
          let output1 := delOut delCount
          let prev1 := e + 1
          cleanupLoop delete_active delOut fuel output1 prev1
            (strFindFrom output1 "\n".toList prev1) (delCount + 1) (uuid :: acc)
        | none =>
          let prev1 := e + 1
          cleanupLoop delete_active delOut fuel output prev1
            (strFindFrom output "\n".toList prev1) delCount acc

/-- `VBOX_VM::cleanupsnapshots` (vbox.cpp lines 483-545): enumerate the
snapshots (`listRet`, `listing` are that call's oracle), then run the
deletion loop; the function returns 0 whenever the enumeration succeeded,
paired with the UUIDs for which a delete was issued, in order. -/
def cleanupsnapshots (delete_active : Bool) (listRet : Nat) (listing : List Char)
    (delOut : Nat → List Char) (fuel : Nat) : Nat × List (List Char) :=
  if listRet ≠ 0 then (listRet, [])
  else (0, cleanupLoop delete_active delOut fuel listing 0
    (strFind listing "\n".toList) 0 [])

/-- `VBOX_VM::run` (vbox.cpp lines 239-280), at the granularity of its
callees: when not registered, a stale disk triggers `deregister_stale_vm`
(failure propagates) and then `register_vm` (failure propagates); then
`register_only` exits with `ERR_FOPEN` (line 256); otherwise poll, power
off when online, restore the snapshot when `elapsed_time` is non-zero
(both results discarded), and return the result of `start`. -/
def run (is_registered is_hdd_registered : Bool) (dereg_stale_ret register_ret : Nat)
    (register_only : Bool) (_poll_online : Bool) (_elapsed_nonzero : Bool)
    (_restore_ret start_ret : Nat) : Nat :=
  let early : Option Nat :=
    if is_registered = false then
      if is_hdd_registered = true ∧ dereg_stale_ret ≠ 0 then some dereg_stale_ret
      else if register_ret ≠ 0 then some register_ret
      else none
    else none
  match early with
  | some r => r
  | none =>
    if register_only then ERR_FOPEN
    else if start_ret ≠ 0 then start_ret
    else 0

/-- A combined-output text of the kind the hypervisor CLI prints on a
session-lock failure, carrying the `(0x80bb0007)` code. -/
def lockErrOutput : List Char :=
  ("VBoxManage: error: The object is not ready\n" ++
   "Details: code VBOX_E_INVALID_OBJECT_STATE (0x80bb0007), component SessionMachine\n").toList

/-- Combined output of a successful `snapshot take`. -/
def snapshotOkOutput : List Char := "0%...10%...100%\nSnapshot taken.\n".toList

/-- Raw-call oracle injecting the session-lock error on the first two
attempts and success on the third. -/
def lockTwiceRaw : Nat → Nat × List Char :=
  fun i => if i < 2 then (0x80bb0007, lockErrOutput) else (0, snapshotOkOutput)

/-- A `snapshot list` output with two snapshots and no active-snapshot
marker, in the format quoted at vbox.cpp lines 502-506. -/
def twoSnapshotListing : List Char :=
  ("   Name: Snapshot 2 (UUID: 1751e9a6-49e7-4dcc-ab23-08428b665ddf)\n" ++
   "   Name: Snapshot 3 (UUID: 92fa8b35-873a-4197-9d54-7b6b746b2c58)\n").toList

/-- A `snapshot list` output for a VM without snapshots. -/
def noSnapshotListing : List Char :=
  "This machine does not have any snapshots\n".toList

/-- A machine-readable `showvminfo` output for a powered-off VM. -/
def poweroffVminfo : List Char := "VMState=\"poweroff\"\n".toList

/-- A machine-readable `showvminfo` output for a running VM. -/
def runningVminfo : List Char := "VMState=\"running\"\n".toList

/-! Helper lemmas. -/

set_option maxHeartbeats 1600000 in
/-- Every branch of the poller's token classification yields `suspended`
only alongside `online`. -/
theorem vmstateTriple_suspended_online (st : List Char) :
    (vmstateTriple st).2.1 = true → (vmstateTriple st).1 = true := by
  unfold vmstateTriple
  split_ifs <;> intro h <;> first | rfl | exact h

/-- `poll` preserves the `suspended → online` implication. -/
theorem poll_suspended_online (ok : Bool) (out : List Char) (s : VMFlags)
    (h : s.suspended = true → s.online = true) :
    (poll ok out s).suspended = true → (poll ok out s).online = true := by
  unfold poll
  split_ifs with hok
  · cases hx : extractVMState out with
    | none => exact h
    | some st => exact fun hs => vmstateTriple_suspended_online st hs
  · exact h

/-- `poll` reports the `online` value announced by the CLI output, or keeps
the old one when the output carries no signal. -/
theorem poll_online_signal (ok : Bool) (out : List Char) (s : VMFlags) :
    (poll ok out s).online =
      ((pollOnlineSignal ok out).getD s.online) := by
  unfold poll pollOnlineSignal
  split_ifs with hok
  · cases hx : extractVMState out with
    | none => rfl
    | some st => rfl
  · rfl

/-! Claim theorems. -/

/-- C1 (code bug): on the POSIX path the invoker does not return the hex
value of the first `(0x...)` substring: for an output carrying
`(0x80bb0007)` and a failed child, `vbm_popen_raw` returns 0, although the
extraction block the function itself runs (lines 2123-2131) parses the
code 0x80bb0007 out of this very output (and the Windows twin of the
function returns it); line 2133 overwrites the parsed value with 0. -/
theorem vbm_popen_raw_posix_discards_error_code :
    vbm_popen_raw true lockErrOutput = (0, lockErrOutput)
    ∧ parseOutputErrcode lockErrOutput = 0x80bb0007
    ∧ vbm_popen_raw_win true 1 lockErrOutput = 0x80bb0007
    ∧ (0x80bb0007 : Nat) ≠ 0 := by decide

/-- C3 (counterexample): a poll that observes VMState
`deletingsnapshotlivepaused` sets `suspended` to false (vbox.cpp
lines 640-643), not true as the claim's table row states; `online` is set
and `crashed` cleared. -/
theorem poll_deletingsnapshotlivepaused_not_suspended :
    poll true "VMState=\"deletingsnapshotlivepaused\"\n".toList initFlags
      = ⟨true, false, false, false⟩ := by decide

/-- C3 (amended): a poll observing `paused` sets
`(online, suspended, crashed) = (true, true, false)`; one observing
`deletingsnapshotlivepaused` sets `(true, false, false)` — the token is
classified with the running group, `suspended` cleared. -/
theorem poll_paused_token_rows (s : VMFlags) :
    (vmstateFlags "paused".toList s).online = true
    ∧ (vmstateFlags "paused".toList s).suspended = true
    ∧ (vmstateFlags "paused".toList s).crashed = false
    ∧ (vmstateFlags "deletingsnapshotlivepaused".toList s).online = true
    ∧ (vmstateFlags "deletingsnapshotlivepaused".toList s).suspended = false
    ∧ (vmstateFlags "deletingsnapshotlivepaused".toList s).crashed = false :=
  ⟨rfl, rfl, rfl, rfl, rfl, rfl⟩

/-- C5 (code bug): the deletion loop of `cleanupsnapshots` iterates over
the very buffer that each `snapshot delete` call clears and refills
(vbox.cpp line 537 reuses `output`), so on a listing with two stale
snapshots only the first one is deleted — the loop then continues over the
delete command's own output (empty here) and stops.  The
`does not have any snapshots` listing terminates quietly with no delete. -/
theorem cleanupsnapshots_delete_clobbers_listing :
    (cleanupsnapshots false 0 twoSnapshotListing (fun _ => []) 10).2
      = ["1751e9a6-49e7-4dcc-ab23-08428b665ddf".toList]
    ∧ strContains twoSnapshotListing "(UUID: 92fa8b35".toList = true
    ∧ cleanupsnapshots false 0 noSnapshotListing (fun _ => []) 10 = (0, [])
    ∧ (cleanupsnapshots false 0 twoSnapshotListing (fun _ => []) 10).1 = 0 := by decide

/-- C6 (code bug): `deregister_vm` issues its storage-controller removal
for a controller named "IDE Controller" (vbox.cpp line 1196), but the
controller `register_vm` creates is named "Hard Disk Controller"
(line 1009); no command in the deregistration sequence mentions the
created controller's name, while the unregister and closemedium commands
are as described. -/
theorem deregister_vm_removes_wrong_controller_name :
    ((deregister_vm "boinc_vm".toList "/slot/0".toList "vm.vdi".toList
        "floppy.img".toList true true).all
      (fun c => !strContains c "Hard Disk Controller".toList)) = true
    ∧ strContains (register_vm_storagectl "boinc_vm".toList "ide".toList "PIIX4".toList)
        "--name \"Hard Disk Controller\" ".toList = true
    ∧ ((deregister_vm "boinc_vm".toList "/slot/0".toList "vm.vdi".toList
        "floppy.img".toList true true).headI)
      = "storagectl \"boinc_vm\" --name \"IDE Controller\" --remove ".toList
    ∧ (deregister_vm "boinc_vm".toList "/slot/0".toList "vm.vdi".toList
        "floppy.img".toList true true)
      = ["storagectl \"boinc_vm\" --name \"IDE Controller\" --remove ".toList,
         "storagectl \"boinc_vm\" --name \"Floppy Controller\" --remove ".toList,
         "unregistervm \"boinc_vm\" --delete ".toList,
         "closemedium disk \"/slot/0/vm.vdi\" --delete ".toList,
         "closemedium floppy \"/slot/0/floppy.img\" --delete ".toList] := by decide

/-- C7 (counterexample): the registration-only exit of `run` returns
`ERR_FOPEN` (vbox.cpp line 256), the very code the invoker returns for a
CLI spawn/pipe failure — the two failure paths are not distinguishable by
their codes. -/
theorem run_register_only_code_equals_spawn_failure_code :
    run true false 0 0 true false false 0 0 = (vbm_popen_raw false []).1
    ∧ run true false 0 0 true false false 0 0 = ERR_FOPEN := by decide

/-- C7 (amended): with the VM already registered (or registration
succeeding) and `register_only` set, `run` returns the non-zero code
`ERR_FOPEN`; the code is non-zero but coincides with the generic CLI
spawn/pipe failure code instead of being distinct from it. -/
theorem run_register_only_returns_err_fopen (poll_online elapsed : Bool)
    (restore_ret start_ret : Nat) :
    run true false 0 0 true poll_online elapsed restore_ret start_ret = ERR_FOPEN
    ∧ ERR_FOPEN ≠ 0 := by
  exact ⟨rfl, by decide⟩

/-- C10 (confirmed): with `online` false on entry, `stop` and `poweroff`
return 0, issue no CLI command, and leave all four runtime flags
untouched. -/
theorem stop_poweroff_offline_noop (vm_name : List Char) (cliRet : Nat)
    (pollOk : Bool) (pollOut : List Char) (s : VMFlags) (h : s.online = false) :
    stop vm_name cliRet pollOk pollOut s = ⟨0, [], s⟩
    ∧ poweroff vm_name cliRet pollOk pollOut s = ⟨0, [], s⟩ := by
  constructor <;> simp [stop, poweroff, h]

/-- C10 witness: concrete teardown of an offline VM is a no-op. -/
theorem stop_poweroff_offline_noop_witness :
    stop "boinc_vm".toList 7 true [] initFlags = ⟨0, [], initFlags⟩
    ∧ poweroff "boinc_vm".toList 7 true [] initFlags = ⟨0, [], initFlags⟩ :=
  stop_poweroff_offline_noop "boinc_vm".toList 7 true [] initFlags rfl

/-- An exiting iteration of the retry loop has made one more raw call. -/
theorem vbmStep_inl_calls (raw : Nat → Nat × List Char) (rf : Bool) (st : VbmIter)
    (r : VbmResult) (h : vbmStep raw rf st = Sum.inl r) : r.calls = st.i + 1 := by
  simp only [vbmStep] at h
  split_ifs at h <;> cases h <;> rfl

/-- A continuing iteration of the retry loop advances the raw-call index by
one. -/
theorem vbmStep_inr_i (raw : Nat → Nat × List Char) (rf : Bool) (st : VbmIter)
    (st1 : VbmIter) (h : vbmStep raw rf st = Sum.inr st1) : st1.i = st.i + 1 := by
  simp only [vbmStep] at h
  split_ifs at h <;> cases h <;> rfl

/-- The retry loop makes at most one raw call per unit of fuel. -/
theorem vbmRun_calls_le (raw : Nat → Nat × List Char) (rf : Bool) :
    ∀ (fuel : Nat) (st : VbmIter), (vbmRun raw rf fuel st).calls ≤ st.i + fuel := by
  intro fuel
  induction fuel with
  | zero => intro st; exact Nat.le_refl _
  | succ n ih =>
    intro st
    have hrun : vbmRun raw rf (n + 1) st =
        (match vbmStep raw rf st with
         | Sum.inl r => r
         | Sum.inr st1 => vbmRun raw rf n st1) := rfl
    rw [hrun]
    cases h : vbmStep raw rf st with
    | inl r =>
      have hc := vbmStep_inl_calls raw rf st r h
      show r.calls ≤ st.i + (n + 1)
      omega
    | inr st1 =>
      have hi := vbmStep_inr_i raw rf st st1 h
      have hn := ih st1
      show (vbmRun raw rf n st1).calls ≤ st.i + (n + 1)
      omega

/-- `vbm_popen` makes at most 6 raw calls: the initial one plus at most 5
retries. -/
theorem vbm_popen_calls_le (raw : Nat → Nat × List Char) (arguments item : List Char)
    (le rf : Bool) : (vbm_popen raw arguments item le rf).1.calls ≤ 6 := by
  have h := vbmRun_calls_le raw rf 6 ⟨0, 0, 1, [], []⟩
  unfold vbm_popen
  dsimp only
  split_ifs <;> exact h

/-- C2 (counterexample): injecting the lock error `0x80bb0007` on the
first two raw calls and success on the third yields three CLI calls with
sleeps of 1 s and 2 s — but the final success's log does not contain the
accumulated note: the notes are only emitted on final failure with
`log_error` set (vbox.cpp line 1936), so on success the error log is empty
and the output carries no note. -/
theorem vbm_popen_lock_note_absent_from_success_log :
    (vbm_popen lockTwiceRaw "snapshot \"boinc_vm\" take boinc_3600".toList
        "create new snapshot".toList true true).1.retval = 0
    ∧ (vbm_popen lockTwiceRaw "snapshot \"boinc_vm\" take boinc_3600".toList
        "create new snapshot".toList true true).1.calls = 3
    ∧ (vbm_popen lockTwiceRaw "snapshot \"boinc_vm\" take boinc_3600".toList
        "create new snapshot".toList true true).1.sleeps = [1, 2]
    ∧ (vbm_popen lockTwiceRaw "snapshot \"boinc_vm\" take boinc_3600".toList
        "create new snapshot".toList true true).2 = []
    ∧ strContains (vbm_popen lockTwiceRaw "snapshot \"boinc_vm\" take boinc_3600".toList
        "create new snapshot".toList true true).1.output lockNeedle = false := by decide

/-- C2 (amended): a retryable call failing with `0x80bb0007` sleeps
`sleep_interval` seconds and doubles the interval for subsequent lock
failures, with at most 5 retries (6 raw calls); injecting the lock error on
exactly the first two attempts yields three CLI calls with sleeps of 1 s
and 2 s and a final success; the note is accumulated in `retry_notes` but
is only attached to the output and logged when the final attempt fails
with `log_error` set, so the successful call emits no log. -/
theorem vbm_popen_lock_backoff_and_bound :
    (∀ (raw : Nat → Nat × List Char) (arguments item : List Char) (le rf : Bool),
      (vbm_popen raw arguments item le rf).1.calls ≤ 6)
    ∧ (vbm_popen lockTwiceRaw "snapshot \"boinc_vm\" take boinc_3600".toList
        "create new snapshot".toList true true).1.retval = 0
    ∧ (vbm_popen lockTwiceRaw "snapshot \"boinc_vm\" take boinc_3600".toList
        "create new snapshot".toList true true).1.calls = 3
    ∧ (vbm_popen lockTwiceRaw "snapshot \"boinc_vm\" take boinc_3600".toList
        "create new snapshot".toList true true).1.sleeps = [1, 2]
    ∧ strContains (vbm_popen lockTwiceRaw "snapshot \"boinc_vm\" take boinc_3600".toList
        "create new snapshot".toList true true).1.notes lockNeedle = true
    ∧ (vbm_popen lockTwiceRaw "snapshot \"boinc_vm\" take boinc_3600".toList
        "create new snapshot".toList true true).2 = [] :=
  ⟨fun raw arguments item le rf => vbm_popen_calls_le raw arguments item le rf,
   by decide, by decide, by decide, by decide, by decide⟩

/-- C4 (counterexample): `pause` sets `suspended` without consulting
`online` (vbox.cpp line 419), so a `controlvm pause` reported successful
on an offline VM — which is what the POSIX invoker reports, since it
always returns 0 on a spawned child — leaves the reachable state
`suspended = true, online = false`, violating the invariant. -/
theorem pause_offline_breaks_suspended_implies_online :
    (supRun [SupOp.pause 0] initFlags).suspended = true
    ∧ (supRun [SupOp.pause 0] initFlags).online = false := by decide

/-- C4 (amended): the invariant `suspended ⇒ online` is preserved by every
flag-mutating supervisor operation except `pause`: `poll` establishes it in
every branch, `resume`, `stop`, `poweroff` and `set_network_access`
preserve it, and `pause` preserves it exactly under the additional
assumption that a successful `controlvm pause` only happens while `online`
is true. -/
theorem supStep_preserves_suspended_implies_online (s : VMFlags) (op : SupOp)
    (hinv : s.suspended = true → s.online = true)
    (hpause : ∀ r, op = SupOp.pause r → r = 0 → s.online = true) :
    (supStep op s).suspended = true → (supStep op s).online = true := by
  cases op with
  | poll ok out => exact poll_suspended_online ok out s hinv
  | pause r =>
    by_cases hr : r = 0
    · subst hr
      have honline := hpause 0 rfl rfl
      intro _
      show ({ s with suspended := true } : VMFlags).online = true
      simpa using honline
    · show ((pause r s).2.suspended = true) → ((pause r s).2.online = true)
      unfold pause
      simp only [if_pos hr]
      exact hinv
  | resume r =>
    show ((resume r s).2.suspended = true) → ((resume r s).2.online = true)
    unfold resume
    split_ifs
    · exact hinv
    · intro h; exact h.elim
  | stop r ok out =>
    show ((stop [] r ok out s).flags.suspended = true) →
      ((stop [] r ok out s).flags.online = true)
    unfold stop
    dsimp only
    split_ifs <;> first | exact poll_suspended_online ok out s hinv | exact hinv
  | poweroff r ok out =>
    show ((poweroff [] r ok out s).flags.suspended = true) →
      ((poweroff [] r ok out s).flags.online = true)
    unfold poweroff
    dsimp only
    split_ifs <;> first | exact poll_suspended_online ok out s hinv | exact hinv
  | setNetwork b => exact hinv

/-- C4 witness: pausing a VM that is online keeps the invariant. -/
theorem supStep_preserves_suspended_implies_online_witness :
    (supStep (SupOp.pause 0) ⟨true, false, false, false⟩).online = true :=
  supStep_preserves_suspended_implies_online ⟨true, false, false, false⟩ (SupOp.pause 0)
    (fun _ => rfl) (fun _ _ _ => rfl) (by decide)

/-- C8 (confirmed): the hardware-virtualization decision of `register_vm`:
a 32-bit guest on a host lacking both `vmx` and `svm` gets
`--hwvirtex off`; a 64-bit guest skips the whole decision; the prior
VT-x-failure flag is consulted only when the client version is newer than
7.2.16, and otherwise (older or equal) `cpu_count = "1"` triggers
disabling instead; the `modifyvm --hwvirtex off` command is issued exactly
when the decision says so. -/
theorem register_vm_hwvirtex_decision (os p cpu : List Char) (M m r : Nat) :
    (∀ ext, strContains os "_64".toList = false →
      strContains p "vmx".toList = false → strContains p "svm".toList = false →
      hwvirtexOff os p cpu M m r ext = true)
    ∧ (∀ ext, strContains os "_64".toList = true →
      hwvirtexOff os p cpu M m r ext = false)
    ∧ (is_client_version_newer M m r 7 2 16 = false →
      hwvirtexOff os p cpu M m r true = hwvirtexOff os p cpu M m r false)
    ∧ (∀ ext, is_client_version_newer M m r 7 2 16 = false →
      strContains os "_64".toList = false → cpu = "1".toList →
      hwvirtexOff os p cpu M m r ext = true)
    ∧ (∀ vm_name ext, hwvirtexCmds vm_name os p cpu M m r ext =
      if hwvirtexOff os p cpu M m r ext then
        ["modifyvm \"".toList ++ vm_name ++ "\" --hwvirtex off ".toList]
      else []) := by
  refine ⟨?_, ?_, ?_, ?_, ?_⟩
  · intro ext h64 hv hs
    simp_all [hwvirtexOff]
  · intro ext h64
    simp_all [hwvirtexOff]
  · intro hnew
    simp [hwvirtexOff, hnew]
  · intro ext hnew h64 hcpu
    simp_all [hwvirtexOff]
  · intro vm_name ext
    rfl

/-- C8 witness: concrete decisions — 32-bit guest without `vmx`/`svm`
disables, 64-bit skips, at client version 7.2.16 (not newer) the
extensions flag is irrelevant and `cpu_count = "1"` disables. -/
theorem register_vm_hwvirtex_decision_witness :
    hwvirtexOff "Linux26".toList "fpu tsc sse".toList "1".toList 7 2 16 false = true
    ∧ hwvirtexOff "Linux26_64".toList "fpu tsc sse".toList "2".toList 7 2 16 true = false
    ∧ hwvirtexOff "Linux26".toList "fpu vmx".toList "2".toList 7 2 16 true
      = hwvirtexOff "Linux26".toList "fpu vmx".toList "2".toList 7 2 16 false
    ∧ hwvirtexOff "Linux26".toList "fpu vmx".toList "1".toList 7 2 16 true = true :=
  ⟨(register_vm_hwvirtex_decision "Linux26".toList "fpu tsc sse".toList "1".toList
      7 2 16).1 false (by decide) (by decide) (by decide),
   (register_vm_hwvirtex_decision "Linux26_64".toList "fpu tsc sse".toList "2".toList
      7 2 16).2.1 true (by decide),
   (register_vm_hwvirtex_decision "Linux26".toList "fpu vmx".toList "2".toList
      7 2 16).2.2.1 (by decide),
   (register_vm_hwvirtex_decision "Linux26".toList "fpu vmx".toList "1".toList
      7 2 16).2.2.2.1 true (by decide) (by decide) (by decide)⟩

/-- Unfolding of one iteration of the start wait loop. -/
theorem startWait_succ (pollOk : Nat → Bool) (pollOut : Nat → List Char)
    (s : VMFlags) (t n : Nat) :
    startWait pollOk pollOut s t (n + 1) =
      (if (poll (pollOk t) (pollOut t) s).online = true
         then (poll (pollOk t) (pollOut t) s, 1)
       else if t + 1 ≤ 300 then
         ((startWait pollOk pollOut (poll (pollOk t) (pollOut t) s) (t + 1) n).1,
          (startWait pollOk pollOut (poll (pollOk t) (pollOut t) s) (t + 1) n).2 + 1)
       else (poll (pollOk t) (pollOut t) s, 1)) := rfl

/-- When no poll up to second 300 announces `online`, the wait loop never
sees `online` become true. -/
theorem startWait_not_online (pollOk : Nat → Bool) (pollOut : Nat → List Char) :
    ∀ (fuel t : Nat) (s : VMFlags), t ≤ 300 → s.online = false →
      (∀ u, u ≤ 300 → pollOnlineSignal (pollOk u) (pollOut u) ≠ some true) →
      (startWait pollOk pollOut s t fuel).1.online = false := by
  intro fuel
  induction fuel with
  | zero => intro t s _ hs _; exact hs
  | succ n ih =>
    intro t s ht hs hsig
    have hpoll : (poll (pollOk t) (pollOut t) s).online = false := by
      rw [poll_online_signal]
      cases hx : pollOnlineSignal (pollOk t) (pollOut t) with
      | none => simpa using hs
      | some b =>
        have hb := hsig t ht
        rw [hx] at hb
        cases b with
        | true => exact absurd rfl hb
        | false => rfl
    rw [startWait_succ]
    rw [if_neg (by simp [hpoll])]
    by_cases h301 : t + 1 ≤ 300
    · rw [if_pos h301]
      exact ih (t + 1) (poll (pollOk t) (pollOut t) s) h301 hpoll hsig
    · rw [if_neg h301]
      exact hpoll

/-- When some poll at second `u ≤ 300` announces `online`, the wait loop
(with enough fuel to reach second 300) observes `online`. -/
theorem startWait_found (pollOk : Nat → Bool) (pollOut : Nat → List Char) :
    ∀ (fuel t : Nat) (s : VMFlags),
      (∃ u, t ≤ u ∧ u ≤ 300 ∧ pollOnlineSignal (pollOk u) (pollOut u) = some true) →
      301 ≤ t + fuel →
      (startWait pollOk pollOut s t fuel).1.online = true := by
  intro fuel
  induction fuel with
  | zero =>
    intro t s hex hf
    obtain ⟨u, htu, hu, _⟩ := hex
    omega
  | succ n ih =>
    intro t s hex hf
    obtain ⟨u, htu, hu, hsig⟩ := hex
    rw [startWait_succ]
    by_cases hol : (poll (pollOk t) (pollOut t) s).online = true
    · rw [if_pos hol]
      exact hol
    · rw [if_neg hol]
      have htu' : t < u := by
        rcases Nat.lt_or_ge t u with h | h
        · exact h
        · have heq : t = u := Nat.le_antisymm htu h
          have : (poll (pollOk t) (pollOut t) s).online = true := by
            rw [poll_online_signal, heq, hsig]
            rfl
          exact absurd this hol
      have h301 : t + 1 ≤ 300 := by omega
      rw [if_pos h301]
      exact ih (t + 1) (poll (pollOk t) (pollOut t) s) ⟨u, by omega, hu, hsig⟩ (by omega)

/-- C9 (confirmed): `start` issues exactly one `startvm` command, carrying
`--type headless` exactly when `headless` is set; after a successful
`startvm` it polls once per second with a 300-second budget, returning
`ERR_EXEC` when no poll up to second 300 reports `online` and success when
one does. -/
theorem start_polls_and_reports (vm_name : List Char) (pollOk : Nat → Bool)
    (pollOut : Nat → List Char) (s : VMFlags) :
    (∀ headless, (start vm_name headless 0 pollOk pollOut s).cmds.countP
        (fun c => "startvm ".toList.isPrefixOf c) = 1)
    ∧ startvmCmd vm_name true
        = ("startvm \"".toList ++ vm_name ++ "\"".toList) ++ " --type headless".toList
    ∧ startvmCmd vm_name false = "startvm \"".toList ++ vm_name ++ "\"".toList
    ∧ (∀ headless, s.online = false →
        (∀ u, u ≤ 300 → pollOnlineSignal (pollOk u) (pollOut u) ≠ some true) →
        (start vm_name headless 0 pollOk pollOut s).retval = ERR_EXEC)
    ∧ (∀ headless,
        (∃ u, u ≤ 300 ∧ pollOnlineSignal (pollOk u) (pollOut u) = some true) →
        (start vm_name headless 0 pollOk pollOut s).retval = BOINC_SUCCESS) := by
  have hpre : ∀ headless,
      ("startvm ".toList.isPrefixOf (startvmCmd vm_name headless)) = true := by
    intro headless
    cases headless <;> rfl
  have hshow : ("startvm ".toList.isPrefixOf (showvminfoCmd vm_name)) = false := rfl
  have hrep : ∀ k, (List.replicate k (showvminfoCmd vm_name)).countP
      (fun c => "startvm ".toList.isPrefixOf c) = 0 := by
    intro k
    induction k with
    | zero => rfl
    | succ n ihn =>
      rw [List.replicate_succ, List.countP_cons, ihn, hshow]
      rfl
  refine ⟨?_, rfl, ?_, ?_, ?_⟩
  · intro headless
    show (List.countP (fun c => "startvm ".toList.isPrefixOf c)
      (startvmCmd vm_name headless ::
        List.replicate (startWait pollOk pollOut s 0 301).2 (showvminfoCmd vm_name))) = 1
    rw [List.countP_cons, hrep, hpre headless]
    rfl
  · simp [startvmCmd]
  · intro headless h0 hsig
    have hw := startWait_not_online pollOk pollOut 301 0 s (by omega) h0 hsig
    simp [start, hw]
  · intro headless hex
    obtain ⟨u, hu, hsig⟩ := hex
    have hw := startWait_found pollOk pollOut 301 0 s ⟨u, Nat.zero_le u, hu, hsig⟩ (by omega)
    simp [start, hw, BOINC_SUCCESS]

/-- C9 witness: with every poll reporting `poweroff` the start times out
with `ERR_EXEC`; with a poll reporting `running` it succeeds. -/
theorem start_polls_and_reports_witness :
    (start "boinc_vm".toList true 0 (fun _ => true) (fun _ => poweroffVminfo)
      initFlags).retval = ERR_EXEC
    ∧ (start "boinc_vm".toList true 0 (fun _ => true) (fun _ => runningVminfo)
      initFlags).retval = BOINC_SUCCESS :=
  ⟨(start_polls_and_reports "boinc_vm".toList (fun _ => true)
      (fun _ => poweroffVminfo) initFlags).2.2.2.1 true rfl (fun u hu => by decide),
   (start_polls_and_reports "boinc_vm".toList (fun _ => true)
      (fun _ => runningVminfo) initFlags).2.2.2.2 true ⟨0, by decide, by decide⟩⟩
